import Mathlib

/-!
Smart enumerations: `user_type.h`.

A verification development for the structure that the text of `user_type.h`
(`DECLARE_USER_TYPE` / `USER_TYPE` / `END_USER_TYPE`, lines 79-130) writes down.

The model:

* The underlying `ValueType` is an integral scalar type, described by its width and
  signedness (`ScalarType`).  A value of such a type is an `Int` inside the range of the
  type.
* Arithmetic is fixed-width two's complement: the exact integer result is reduced modulo
  `2 ^ bits` into the range of the type (`wrap`).  This is also the integral conversion
  between scalar types (`static_cast`, implicit conversion of an enumerator to
  `value_type`).  Overflow of a signed type in `++`, `--`, `+=`, `-=`, `*=` and `<<=`,
  which C++ leaves undefined, is modelled by the same wraparound.
* The faults of the model are a zero divisor (`/=`, `%=`), a quotient that is not
  representable (`/=`, `%=`: the minimum of a signed type at least as wide as `int`,
  divided by `-1`) and a shift count outside `[0, bits)`; a faulting built-in operation
  returns `none`.
* `enum_type` is an unscoped enumeration without a fixed underlying type; the integral
  type the implementation picks for it is a parameter (`enum_type : ScalarType`) of the
  one member that casts to it.  An `enum_type` value is modelled by its integer value.
* A mutating member is a function from the receiver to a `Call`: the receiver after the
  call together with what the call returns.  A member returning `*this` by reference
  returns the receiver as it is after the call.
* Each member is modelled from its body as written on its source line; the line is given
  in the doc comment.
* A reference returned by an accessor is modelled by what it designates once the call has
  returned (`Referent`); an expression that the declarations do not admit has the outcome
  `ill_formed`, and a read or write through a reference to an object that no longer exists
  has no defined result.
* The text of lines 79-130 is modelled line by line (`header`): what each physical line
  holds, whether it ends with a backslash, and the braces it leaves open.  Directives are
  found after line splicing (`logical_lines`).
-/

namespace etl

/-! ## Scalar types -/

/-- Integral scalar type: its width in bits and whether it is signed. -/
structure ScalarType where
  bits : Nat
  is_signed : Bool
deriving DecidableEq, Repr

namespace ScalarType

/-- Number of distinct values, `2 ^ bits`. -/
def modulus (T : ScalarType) : Int := ((2 ^ T.bits : Nat) : Int)

/-- Smallest value: `0` when unsigned, `-(2 ^ bits / 2)` when signed. -/
def min (T : ScalarType) : Int := if T.is_signed then -(T.modulus / 2) else 0

/-- The type `unsigned char` (8 bits). -/
def unsigned_char : ScalarType := ⟨8, false⟩

/-- The type `int` (32 bits). -/
def int : ScalarType := ⟨32, true⟩

/-- The type `unsigned int` (32 bits). -/
def unsigned_int : ScalarType := ⟨32, false⟩

/-- The type `long long` (64 bits). -/
def long_long : ScalarType := ⟨64, true⟩

end ScalarType

/-- Membership of an integer in the range of a scalar type. -/
def InRange (T : ScalarType) (n : Int) : Prop := T.min ≤ n ∧ n < T.min + T.modulus

instance (T : ScalarType) (n : Int) : Decidable (InRange T n) := by
  unfold InRange; infer_instance

/-- Reduction modulo `2 ^ bits` into the range of `T`: the integral conversion to `T`, and
the result of fixed-width arithmetic in `T`. -/
def wrap (T : ScalarType) (n : Int) : Int := (n - T.min) % T.modulus + T.min

/-- Bit pattern of a value of `T`, as a natural number below `2 ^ bits`. -/
def toBits (T : ScalarType) (n : Int) : Nat := (n % T.modulus).toNat

/-- The relation between an exact integer result and its fixed-width counterpart: the
stored result lies in the range of `T` and differs from the exact one by a multiple of
`2 ^ bits`. -/
def IsFixedWidth (T : ScalarType) (exact r : Int) : Prop :=
  InRange T r ∧ (r - exact) % T.modulus = 0

instance (T : ScalarType) (exact r : Int) : Decidable (IsFixedWidth T exact r) := by
  unfold IsFixedWidth; infer_instance

/-! ## Built-in operations on an lvalue of type `value_type` -/

namespace Scalar

/-- Built-in `++value`. -/
def inc (V : ScalarType) (value : Int) : Int := wrap V (value + 1)

/-- Built-in `--value`. -/
def dec (V : ScalarType) (value : Int) : Int := wrap V (value - 1)

/-- Built-in `value += rhs`. -/
def add (V : ScalarType) (value rhs : Int) : Int := wrap V (value + rhs)

/-- Built-in `value -= rhs`. -/
def sub (V : ScalarType) (value rhs : Int) : Int := wrap V (value - rhs)

/-- Built-in `value *= rhs`. -/
def mul (V : ScalarType) (value rhs : Int) : Int := wrap V (value * rhs)

/-- Whether the quotient of the built-in division is not representable: the minimum of a
signed type at least as wide as `int`, divided by `-1`.  Operands of a narrower type are
promoted to `int`, where the quotient is representable. -/
def div_overflows (V : ScalarType) (value rhs : Int) : Bool :=
  V.is_signed && decide (ScalarType.int.bits ≤ V.bits) && decide (value = V.min)
    && decide (rhs = -1)

/-- Built-in `value /= rhs`: the quotient truncated towards zero; a zero divisor faults,
and so does a quotient that is not representable. -/
def div (V : ScalarType) (value rhs : Int) : Option Int :=
  if rhs = 0 ∨ div_overflows V value rhs = true then none
  else some (wrap V (Int.tdiv value rhs))

/-- Built-in `value %= rhs`: the remainder of the truncating division; a zero divisor
faults, and so does a division whose quotient is not representable. -/
def mod (V : ScalarType) (value rhs : Int) : Option Int :=
  if rhs = 0 ∨ div_overflows V value rhs = true then none
  else some (wrap V (Int.tmod value rhs))

/-- Built-in `value &= rhs`, on the bit patterns. -/
def and (V : ScalarType) (value rhs : Int) : Int :=
  wrap V (Nat.land (toBits V value) (toBits V rhs))

/-- Built-in `value |= rhs`, on the bit patterns. -/
def or (V : ScalarType) (value rhs : Int) : Int :=
  wrap V (Nat.lor (toBits V value) (toBits V rhs))

/-- Built-in `value ^= rhs`, on the bit patterns. -/
def xor (V : ScalarType) (value rhs : Int) : Int :=
  wrap V (Nat.xor (toBits V value) (toBits V rhs))

/-- Built-in `value <<= rhs`: multiplication by `2 ^ rhs`; a count outside `[0, bits)`
faults. -/
def shl (V : ScalarType) (value rhs : Int) : Option Int :=
  if 0 ≤ rhs ∧ rhs < (V.bits : Int) then some (wrap V (value * 2 ^ rhs.toNat)) else none

/-- Built-in `value >>= rhs`: division by `2 ^ rhs` rounding down; a count outside
`[0, bits)` faults. -/
def shr (V : ScalarType) (value rhs : Int) : Option Int :=
  if 0 ≤ rhs ∧ rhs < (V.bits : Int) then some (wrap V (value / 2 ^ rhs.toNat)) else none

end Scalar

/-! ## The structure `TypeName` -/

/-- The structure declared by `DECLARE_USER_TYPE(TypeName, ValueType)`: its only data
member is `value_type value` (line 129). -/
structure TypeName (ValueType : ScalarType) where
  value : Int
deriving DecidableEq, Repr

/-- Outcome of a call of a mutating member: the receiver after the call, and the instance
the call returns. -/
structure Call (ValueType : ScalarType) where
  self : TypeName ValueType
  ret : TypeName ValueType
deriving DecidableEq, Repr

namespace TypeName

variable {ValueType : ScalarType}

/-- Line 99: `TypeName(const TypeName &other) : value(other.value) {}`. -/
def copy (other : TypeName ValueType) : TypeName ValueType := ⟨other.value⟩

/-- Line 100: `TypeName(enum_type value) : value(value) {}`.  The enumerator is converted
to `value_type` when the member is initialised. -/
def of_enum (ValueType : ScalarType) (value : Int) : TypeName ValueType :=
  ⟨wrap ValueType value⟩

/-- Line 102: `explicit TypeName(value_type value) : value(static_cast<enum_type>(value)) {}`.
The argument is cast to `enum_type`, and the enumeration value is converted back to
`value_type` when the member is initialised. -/
def of_value (ValueType enum_type : ScalarType) (value : Int) : TypeName ValueType :=
  ⟨wrap ValueType (wrap enum_type value)⟩

/-- Line 103: `explicit operator value_type() const {return static_cast<value_type>(value);}`.
The cast is from `value_type` to itself. -/
def to_value_type (self : TypeName ValueType) : Int := self.value

/-- Line 106: `TypeName& operator ++() { ++value; return *this; }`. -/
def operator_pre_inc (self : TypeName ValueType) : Call ValueType :=
  let self : TypeName ValueType := ⟨Scalar.inc ValueType self.value⟩
  ⟨self, self⟩

/-- Line 107: `TypeName operator ++(int) { TypeName temp(*this); TypeName::operator ++(); return temp; }`. -/
def operator_post_inc (self : TypeName ValueType) : Call ValueType :=
  let temp := copy self
  let self := (operator_pre_inc self).self
  ⟨self, temp⟩

/-- Line 108: `TypeName& operator --() { --value; return *this; }`. -/
def operator_pre_dec (self : TypeName ValueType) : Call ValueType :=
  let self : TypeName ValueType := ⟨Scalar.dec ValueType self.value⟩
  ⟨self, self⟩

/-- Line 109: `TypeName operator --(int) { TypeName temp(*this); TypeName::operator --(); return temp; }`. -/
def operator_post_dec (self : TypeName ValueType) : Call ValueType :=
  let temp := copy self
  let self := (operator_pre_dec self).self
  ⟨self, temp⟩

/-- The statement pair `value = r; return *this;` that ends every compound assignment. -/
def store (r : Int) : Call ValueType :=
  let self : TypeName ValueType := ⟨r⟩
  ⟨self, self⟩

/-- Line 110: `TypeName& operator +=(value_type rhs) { value += rhs; return *this; }`. -/
def operator_add_assign (self : TypeName ValueType) (rhs : Int) : Call ValueType :=
  store (Scalar.add ValueType self.value rhs)

/-- Line 111: `TypeName& operator +=(const TypeName& rhs) { value += rhs.value; return *this; }`. -/
def operator_add_assign_ref (self rhs : TypeName ValueType) : Call ValueType :=
  store (Scalar.add ValueType self.value rhs.value)

/-- Line 112: `TypeName& operator -=(value_type rhs) { value -= rhs; return *this; }`. -/
def operator_sub_assign (self : TypeName ValueType) (rhs : Int) : Call ValueType :=
  store (Scalar.sub ValueType self.value rhs)

/-- Line 113: `TypeName& operator -=(const TypeName& rhs) { value -= rhs.value; return *this; }`. -/
def operator_sub_assign_ref (self rhs : TypeName ValueType) : Call ValueType :=
  store (Scalar.sub ValueType self.value rhs.value)

/-- Line 114: `TypeName& operator *=(value_type rhs) { value *= rhs; return *this; }`. -/
def operator_mul_assign (self : TypeName ValueType) (rhs : Int) : Call ValueType :=
  store (Scalar.mul ValueType self.value rhs)

/-- Line 115: `TypeName& operator *=(const TypeName& rhs) { value *= rhs.value; return *this; }`. -/
def operator_mul_assign_ref (self rhs : TypeName ValueType) : Call ValueType :=
  store (Scalar.mul ValueType self.value rhs.value)

/-- Line 116: `TypeName& operator /=(value_type rhs) { value /= rhs; return *this; }`. -/
def operator_div_assign (self : TypeName ValueType) (rhs : Int) : Option (Call ValueType) :=
  match Scalar.div ValueType self.value rhs with
  | none => none
  | some r => some (store r)

/-- Line 117: `TypeName& operator /=(const TypeName& rhs) { value /= rhs.value; return *this; }`. -/
def operator_div_assign_ref (self rhs : TypeName ValueType) : Option (Call ValueType) :=
  match Scalar.div ValueType self.value rhs.value with
  | none => none
  | some r => some (store r)

/-- Line 118: `TypeName& operator %=(value_type rhs) { value %= rhs; return *this; }`. -/
def operator_mod_assign (self : TypeName ValueType) (rhs : Int) : Option (Call ValueType) :=
  match Scalar.mod ValueType self.value rhs with
  | none => none
  | some r => some (store r)

/-- Line 119: `TypeName& operator %=(const TypeName& rhs) { value %= rhs.value; return *this; }`. -/
def operator_mod_assign_ref (self rhs : TypeName ValueType) : Option (Call ValueType) :=
  match Scalar.mod ValueType self.value rhs.value with
  | none => none
  | some r => some (store r)

/-- Line 120: `TypeName& operator &=(value_type rhs) { value &= rhs; return *this; }`. -/
def operator_and_assign (self : TypeName ValueType) (rhs : Int) : Call ValueType :=
  store (Scalar.and ValueType self.value rhs)

/-- Line 121: `TypeName& operator &=(const TypeName& rhs) { value &= rhs.value; return *this; }`. -/
def operator_and_assign_ref (self rhs : TypeName ValueType) : Call ValueType :=
  store (Scalar.and ValueType self.value rhs.value)

/-- Line 122: `TypeName& operator |=(value_type rhs) { value |= rhs; return *this; }`. -/
def operator_or_assign (self : TypeName ValueType) (rhs : Int) : Call ValueType :=
  store (Scalar.or ValueType self.value rhs)

/-- Line 123: `TypeName& operator |=(const TypeName& rhs) { value |= rhs.value; return *this; }`. -/
def operator_or_assign_ref (self rhs : TypeName ValueType) : Call ValueType :=
  store (Scalar.or ValueType self.value rhs.value)

/-- Line 124: `TypeName& operator ^=(value_type rhs) { value ^= rhs; return *this; }`. -/
def operator_xor_assign (self : TypeName ValueType) (rhs : Int) : Call ValueType :=
  store (Scalar.xor ValueType self.value rhs)

/-- Line 125: `TypeName& operator ^=(const TypeName& rhs) { value ^= rhs.value; return *this; }`. -/
def operator_xor_assign_ref (self rhs : TypeName ValueType) : Call ValueType :=
  store (Scalar.xor ValueType self.value rhs.value)

/-- Line 126: `TypeName& operator <<=(value_type rhs) { value <<= rhs; return *this; }`. -/
def operator_shl_assign (self : TypeName ValueType) (rhs : Int) : Option (Call ValueType) :=
  match Scalar.shl ValueType self.value rhs with
  | none => none
  | some r => some (store r)

/-- Line 127: `TypeName& operator >>=(value_type rhs) { value >>= rhs; return *this; }`. -/
def operator_shr_assign (self : TypeName ValueType) (rhs : Int) : Option (Call ValueType) :=
  match Scalar.shr ValueType self.value rhs with
  | none => none
  | some r => some (store r)

end TypeName

/-- The postcondition of a member that stores `r` and returns `*this`: the receiver is left
holding `r`, and the returned instance is the receiver after the call. -/
def Call.Leaves {ValueType : ScalarType} (c : Call ValueType) (r : Int) : Prop :=
  c.self.value = r ∧ c.ret = c.self

instance {ValueType : ScalarType} (c : Call ValueType) (r : Int) : Decidable (c.Leaves r) := by
  unfold Call.Leaves; infer_instance

/-! ## The members declared on lines 98-127 -/

/-- Parameter list of a member: none, `const TypeName&`, `enum_type`, `value_type`, or the
`int` tag of the post forms. -/
inductive Param where
  | void
  | const_ref
  | enum_type
  | value_type
  | int_tag
deriving DecidableEq, Repr

/-- One member declaration: its source line, its name, its parameter list, and whether it
is declared `explicit`. -/
structure Member where
  line : Nat
  name : String
  param : Param
  is_explicit : Bool
deriving DecidableEq, Repr

/-- The member functions written on lines 98-127, in source order. -/
def members : List Member :=
  [ ⟨98, "TypeName", .void, false⟩,
    ⟨99, "TypeName", .const_ref, false⟩,
    ⟨100, "TypeName", .enum_type, false⟩,
    ⟨101, "operator =", .const_ref, false⟩,
    ⟨102, "TypeName", .value_type, true⟩,
    ⟨103, "operator value_type", .void, true⟩,
    ⟨104, "get", .void, false⟩,
    ⟨105, "get", .void, false⟩,
    ⟨106, "operator ++", .void, false⟩,
    ⟨107, "operator ++", .int_tag, false⟩,
    ⟨108, "operator --", .void, false⟩,
    ⟨109, "operator --", .int_tag, false⟩,
    ⟨110, "operator +=", .value_type, false⟩,
    ⟨111, "operator +=", .const_ref, false⟩,
    ⟨112, "operator -=", .value_type, false⟩,
    ⟨113, "operator -=", .const_ref, false⟩,
    ⟨114, "operator *=", .value_type, false⟩,
    ⟨115, "operator *=", .const_ref, false⟩,
    ⟨116, "operator /=", .value_type, false⟩,
    ⟨117, "operator /=", .const_ref, false⟩,
    ⟨118, "operator %=", .value_type, false⟩,
    ⟨119, "operator %=", .const_ref, false⟩,
    ⟨120, "operator &=", .value_type, false⟩,
    ⟨121, "operator &=", .const_ref, false⟩,
    ⟨122, "operator |=", .value_type, false⟩,
    ⟨123, "operator |=", .const_ref, false⟩,
    ⟨124, "operator ^=", .value_type, false⟩,
    ⟨125, "operator ^=", .const_ref, false⟩,
    ⟨126, "operator <<=", .value_type, false⟩,
    ⟨127, "operator >>=", .value_type, false⟩ ]

/-- Lookup of a member function by name, as in `direction.c_str()`. -/
def find_member (name : String) : Option Member :=
  members.find? (fun m => m.name == name)

/-- Whether a `value_type` argument converts implicitly to `TypeName`: only through a
converting constructor from `value_type` that is not `explicit`. -/
def implicit_from_value_type : Bool :=
  members.any (fun m => m.name == "TypeName" && m.param == .value_type && !m.is_explicit)

/-- Whether an instance converts implicitly to `value_type`: only through a conversion
function that is not `explicit`. -/
def implicit_to_value_type : Bool :=
  members.any (fun m => m.name == "operator value_type" && !m.is_explicit)

/-- The ten compound assignment operators. -/
inductive CompoundOp where
  | add | sub | mul | div | mod | and | or | xor | shl | shr
deriving DecidableEq, Repr

/-- The member name of a compound assignment operator. -/
def CompoundOp.symbol : CompoundOp → String
  | .add => "operator +="
  | .sub => "operator -="
  | .mul => "operator *="
  | .div => "operator /="
  | .mod => "operator %="
  | .and => "operator &="
  | .or => "operator |="
  | .xor => "operator ^="
  | .shl => "operator <<="
  | .shr => "operator >>="

/-- Right-hand operand of a compound assignment written by a caller: a raw value of
`value_type`, or another instance of the same declared type. -/
inductive Operand (ValueType : ScalarType) where
  | raw (rhs : Int)
  | inst (rhs : TypeName ValueType)
deriving DecidableEq, Repr

/-- Whether the operand can initialise a parameter of the given kind without an explicit
conversion. -/
def Operand.binds {ValueType : ScalarType} : Operand ValueType → Param → Bool
  | .raw _, .value_type => true
  | .raw _, .const_ref => implicit_from_value_type
  | .inst _, .const_ref => true
  | .inst _, .value_type => implicit_to_value_type
  | _, _ => false

/-- Overload resolution for `x op= operand`: the first declared member of that name whose
parameter the operand can initialise. -/
def overload {ValueType : ScalarType} (op : CompoundOp) (operand : Operand ValueType) :
    Option Member :=
  members.find? (fun m => m.name == op.symbol && operand.binds m.param)

/-- Outcome of an expression: a result, a fault of a built-in operation at run time, or an
expression the declarations do not admit. -/
inductive Outcome (α : Type) where
  | ok (a : α)
  | fault
  | ill_formed
deriving DecidableEq, Repr

/-- Run-time outcome of a member whose built-in operation may fault. -/
def Outcome.of_option {α : Type} : Option α → Outcome α
  | some a => .ok a
  | none => .fault

/-- The expression `x op= operand`: overload resolution against the declared members, then
the body of the overload taking a raw value for a raw operand and of the overload taking
`const TypeName&` for an instance. -/
def compound_assign {ValueType : ScalarType} (op : CompoundOp) (self : TypeName ValueType)
    (operand : Operand ValueType) : Outcome (Call ValueType) :=
  match overload op operand with
  | none => .ill_formed
  | some _ =>
    match op, operand with
    | .add, .raw k => .ok (self.operator_add_assign k)
    | .add, .inst y => .ok (self.operator_add_assign_ref y)
    | .sub, .raw k => .ok (self.operator_sub_assign k)
    | .sub, .inst y => .ok (self.operator_sub_assign_ref y)
    | .mul, .raw k => .ok (self.operator_mul_assign k)
    | .mul, .inst y => .ok (self.operator_mul_assign_ref y)
    | .div, .raw k => .of_option (self.operator_div_assign k)
    | .div, .inst y => .of_option (self.operator_div_assign_ref y)
    | .mod, .raw k => .of_option (self.operator_mod_assign k)
    | .mod, .inst y => .of_option (self.operator_mod_assign_ref y)
    | .and, .raw k => .ok (self.operator_and_assign k)
    | .and, .inst y => .ok (self.operator_and_assign_ref y)
    | .or, .raw k => .ok (self.operator_or_assign k)
    | .or, .inst y => .ok (self.operator_or_assign_ref y)
    | .xor, .raw k => .ok (self.operator_xor_assign k)
    | .xor, .inst y => .ok (self.operator_xor_assign_ref y)
    | .shl, .raw k => .of_option (self.operator_shl_assign k)
    | .shl, .inst _ => .ill_formed
    | .shr, .raw k => .of_option (self.operator_shr_assign k)
    | .shr, .inst _ => .ill_formed

/-! ## The documented example (lines 42-47) -/

namespace CompassDirection

/-- The argument `int` of `DECLARE_USER_TYPE(CompassDirection, int)`. -/
def ValueType : ScalarType := ScalarType.int

/-- The entry `USER_TYPE(North, 0)`. -/
def North : Int := 0

/-- The entry `USER_TYPE(South, 180)`. -/
def South : Int := 180

/-- The entry `USER_TYPE(East,  90)`. -/
def East : Int := 90

/-- The entry `USER_TYPE(West,  270)`. -/
def West : Int := 270

end CompassDirection

/-! ## Assignment and the accessors (lines 101, 104, 105) -/

namespace TypeName

variable {ValueType : ScalarType}

/-- Line 101: `TypeName& operator=(const TypeName &other) {value = other.value; return *this;}`. -/
def operator_assign (_self other : TypeName ValueType) : Call ValueType :=
  let self : TypeName ValueType := ⟨other.value⟩
  ⟨self, self⟩

end TypeName

/-- Objects of one declared type, addressed by a number; two names of a statement may
designate the same object. -/
def Store (ValueType : ScalarType) : Type := Nat → TypeName ValueType

/-- The statement `a = b` on the objects numbered `a` and `b`: line 101 runs with `a` as
the receiver and `b` bound to `const TypeName &other`; only the receiver is written, and
the reference returned designates the receiver. -/
def Store.assign {ValueType : ScalarType} (s : Store ValueType) (a b : Nat) :
    Store ValueType × Nat :=
  let c := (s a).operator_assign (s b)
  (Function.update s a c.self, a)

/-- An expression of type `value_type` inside a member: an lvalue naming the data member
`value`, or a prvalue carrying a value. -/
inductive Expression where
  | member_lvalue
  | prvalue (v : Int)
deriving DecidableEq, Repr

/-- What a reference returned by a member designates once the call has returned: the data
member `value` of the receiver, or a temporary that was initialised with `v` and destroyed
at the end of the `return` statement. -/
inductive Referent where
  | member
  | expired_temporary (v : Int)
deriving DecidableEq, Repr

/-- The expression `static_cast<value_type>(value)` of lines 104-105: a cast to a type
that is not a reference yields a prvalue, here a copy of the stored value. -/
def static_cast_value_type {ValueType : ScalarType} (self : TypeName ValueType) :
    Expression :=
  .prvalue self.value

/-- The statement `return e;` in a member returning `value_type&` (`to_const = false`) or
`const value_type&` (`to_const = true`).  An lvalue binds directly; a prvalue binds only
to a reference to const, through a temporary that does not outlive the `return`. -/
def return_reference (to_const : Bool) : Expression → Outcome Referent
  | .member_lvalue => .ok .member
  | .prvalue v => if to_const then .ok (.expired_temporary v) else .ill_formed

namespace TypeName

variable {ValueType : ScalarType}

/-- Line 104: `value_type& get() {return static_cast<value_type>(value);}`. -/
def get (self : TypeName ValueType) : Outcome Referent :=
  return_reference false (static_cast_value_type self)

/-- Line 105: `const value_type& get() const {return static_cast<value_type>(value);}`. -/
def get_const (self : TypeName ValueType) : Outcome Referent :=
  return_reference true (static_cast_value_type self)

/-- Reading through a returned reference after the call: the stored value for the data
member, nothing defined for a temporary that no longer exists. -/
def read (self : TypeName ValueType) : Referent → Option Int
  | .member => some self.value
  | .expired_temporary _ => none

/-- Writing `w` through a returned reference after the call: the receiver holds `w` when
the reference designates the data member; nothing defined for a temporary that no longer
exists. -/
def write (_self : TypeName ValueType) (w : Int) : Referent → Option (TypeName ValueType)
  | .member => some ⟨w⟩
  | .expired_temporary _ => none

/-- The documented `int value = direction.get();` on a modifiable instance (line 56):
overload resolution picks line 104, then the value is read through the reference. -/
def read_through_get (self : TypeName ValueType) : Outcome Int :=
  match self.get with
  | .ok r => .of_option (self.read r)
  | .fault => .fault
  | .ill_formed => .ill_formed

/-- The documented `const int& value = direction.get();` followed by a read of `value`
(line 58), on a read-only instance: line 105, then the read. -/
def read_through_get_const (self : TypeName ValueType) : Outcome Int :=
  match self.get_const with
  | .ok r => .of_option (self.read r)
  | .fault => .fault
  | .ill_formed => .ill_formed

/-- The statement `x.get() = w;` on a modifiable instance: line 104, then the write; the
outcome is the receiver afterwards. -/
def write_through_get (self : TypeName ValueType) (w : Int) : Outcome (TypeName ValueType) :=
  match self.get with
  | .ok r => .of_option (self.write w r)
  | .fault => .fault
  | .ill_formed => .ill_formed

end TypeName

/-! ## Conversions the declarations admit without a cast -/

/-- Static type of an expression offered where an instance of the declared type is
required: the underlying `value_type`, the nested `enum_type`, or the declared type
itself. -/
inductive Source where
  | value_type
  | enum_type
  | same_type
deriving DecidableEq, Repr

/-- Whether an expression of the given type initialises an instance implicitly: only
through a constructor taking that type that is not declared `explicit`. -/
def converts_to_instance : Source → Bool
  | .value_type => implicit_from_value_type
  | .enum_type =>
    members.any (fun m => m.name == "TypeName" && m.param == .enum_type && !m.is_explicit)
  | .same_type =>
    members.any (fun m => m.name == "TypeName" && m.param == .const_ref && !m.is_explicit)

/-- Whether the statement `direction = operand;` is admitted: some declared `operator =`
has a parameter the operand can initialise without an explicit conversion. -/
def admits_assignment {ValueType : ScalarType} (operand : Operand ValueType) : Bool :=
  members.any (fun m => m.name == "operator =" && operand.binds m.param)

/-- The constructors with one parameter and the conversion functions, as pairs of the
parameter and of whether the member is `explicit`. -/
def conversions : List (String × Param × Bool) :=
  (members.filter (fun m =>
      (m.name == "TypeName" && m.param != .void) || m.name == "operator value_type")).map
    (fun m => (m.name, m.param, m.is_explicit))

/-! ## Comparison of two instances -/

/-- The declared members named `operator ==`. -/
def equality_operators : List Member :=
  members.filter (fun m => m.name == "operator ==")

/-- The expression `value_type(a) == value_type(b)`: the explicit conversion of line 103
on both operands, then the built-in comparison of `value_type`. -/
def compare_converted {ValueType : ScalarType} (a b : TypeName ValueType) : Bool :=
  decide (a.to_value_type = b.to_value_type)

/-- The expression `a == b` on two instances.  Lines 98-127 declare no `operator ==`
(`equality_operators` is empty), which leaves the built-in comparison of `value_type` as
the candidate; it applies only when the operands convert to `value_type` implicitly. -/
def compare_instances {ValueType : ScalarType} (a b : TypeName ValueType) : Outcome Bool :=
  if implicit_to_value_type then .ok (compare_converted a b) else .ill_formed

/-! ## The text of lines 79-130: directives and line splicing -/

/-- What a physical line holds, apart from a trailing backslash: the start of a `#define`
with the name and the parameter names of the defined text, a `//` comment, nothing, or
other text. -/
inductive LineKind where
  | define (name : String) (params : List String)
  | comment
  | blank
  | text
deriving DecidableEq, Repr

/-- One physical line: its number, what it holds, whether it ends with a backslash, and
the braces it leaves open (opening minus closing braces on the line). -/
structure SourceLine where
  num : Nat
  kind : LineKind
  continued : Bool
  braces : Int
deriving DecidableEq, Repr

/-- The physical lines 79-130 of `user_type.h`. -/
def header : List SourceLine :=
  [ ⟨79, .define "DECLARE_USER_TYPE" ["TypeName", "ValueType"], true, 0⟩,
    ⟨80, .text, true, 0⟩,
    ⟨81, .text, true, 1⟩,
    ⟨82, .text, true, 0⟩,
    ⟨83, .text, true, 1⟩,
    ⟨84, .blank, false, 0⟩,
    ⟨85, .comment, false, 0⟩,
    ⟨86, .comment, false, 0⟩,
    ⟨87, .comment, false, 0⟩,
    ⟨88, .define "USER_TYPE" ["enum_name", "value"], true, 0⟩,
    ⟨89, .text, false, 0⟩,
    ⟨90, .blank, false, 0⟩,
    ⟨91, .comment, false, 0⟩,
    ⟨92, .comment, false, 0⟩,
    ⟨93, .comment, false, 0⟩,
    ⟨94, .define "END_USER_TYPE" [], true, 0⟩,
    ⟨95, .text, true, -1⟩,
    ⟨96, .blank, false, 0⟩,
    ⟨97, .text, true, 0⟩,
    ⟨98, .text, true, 0⟩,
    ⟨99, .text, true, 0⟩,
    ⟨100, .text, true, 0⟩,
    ⟨101, .text, true, 0⟩,
    ⟨102, .text, true, 0⟩,
    ⟨103, .text, true, 0⟩,
    ⟨104, .text, true, 0⟩,
    ⟨105, .text, true, 0⟩,
    ⟨106, .text, true, 0⟩,
    ⟨107, .text, true, 0⟩,
    ⟨108, .text, false, 0⟩,
    ⟨109, .text, true, 0⟩,
    ⟨110, .text, true, 0⟩,
    ⟨111, .text, true, 0⟩,
    ⟨112, .text, true, 0⟩,
    ⟨113, .text, true, 0⟩,
    ⟨114, .text, true, 0⟩,
    ⟨115, .text, true, 0⟩,
    ⟨116, .text, true, 0⟩,
    ⟨117, .text, true, 0⟩,
    ⟨118, .text, true, 0⟩,
    ⟨119, .text, true, 0⟩,
    ⟨120, .text, true, 0⟩,
    ⟨121, .text, true, 0⟩,
    ⟨122, .text, true, 0⟩,
    ⟨123, .text, true, 0⟩,
    ⟨124, .text, true, 0⟩,
    ⟨125, .text, true, 0⟩,
    ⟨126, .text, true, 0⟩,
    ⟨127, .text, true, 0⟩,
    ⟨128, .text, true, 0⟩,
    ⟨129, .text, true, 0⟩,
    ⟨130, .text, false, -1⟩ ]

/-- Line 97, `typedef ValueType value_type;`: the only declaration of `value_type`. -/
def value_type_typedef_line : Nat := 97

/-- Line 129, `value_type value;`: the data member. -/
def value_member_line : Nat := 129

/-- Line 130, the `};` that closes the structure opened on line 81. -/
def struct_close_line : Nat := 130

/-- Line splicing: a physical line ending with a backslash is joined with the line that
follows it; `pending` holds, in reverse, the lines joined so far. -/
def splice (pending : List SourceLine) : List SourceLine → List (List SourceLine)
  | [] => if pending.isEmpty then [] else [pending.reverse]
  | l :: rest =>
    if l.continued then splice (l :: pending) rest
    else (l :: pending).reverse :: splice [] rest

/-- The logical lines of lines 79-130, each as the physical lines it is spliced from. -/
def logical_lines : List (List SourceLine) := splice [] header

/-- The name and parameter names a logical line defines, when it is a `#define`
directive: a directive is one logical line and ends with it. -/
def defines (logical : List SourceLine) : Option (String × List String) :=
  match logical.head? with
  | some ⟨_, .define name params, _, _⟩ => some (name, params)
  | _ => none

/-- The physical line numbers that make up the directive defining `name`. -/
def directive_lines (name : String) : List Nat :=
  match logical_lines.find? (fun g => (defines g).map (fun d => d.1) == some name) with
  | some g => g.map (fun l => l.num)
  | none => []

/-- The parameter names of the directive defining `name`. -/
def directive_params (name : String) : Option (List String) :=
  logical_lines.findSome? (fun g =>
    match defines g with
    | some (n, ps) => if n == name then some ps else none
    | none => none)

/-- The braces the replacement text of `name` leaves open. -/
def directive_braces (name : String) : Int :=
  match logical_lines.find? (fun g => (defines g).map (fun d => d.1) == some name) with
  | some g => (g.map (fun l => l.braces)).sum
  | none => 0

/-- The braces left open by the documented form of a declaration with `n` constants:
`DECLARE_USER_TYPE(T, V)`, then `n` times `USER_TYPE(name, value)`, then
`END_USER_TYPE`.  A complete definition of the structure leaves none open. -/
def declaration_braces (n : Nat) : Int :=
  directive_braces "DECLARE_USER_TYPE" + n * directive_braces "USER_TYPE"
    + directive_braces "END_USER_TYPE"

/-- The name defined by the directive that the physical line `n` belongs to, if the line
belongs to a directive at all. -/
def enclosing_directive (n : Nat) : Option String :=
  match logical_lines.find? (fun g => g.any (fun l => l.num == n)) with
  | some g => (defines g).map (fun d => d.1)
  | none => none

/-- The physical line numbers of the logical line that the physical line `n` belongs
to. -/
def logical_line_of (n : Nat) : List Nat :=
  match logical_lines.find? (fun g => g.any (fun l => l.num == n)) with
  | some g => g.map (fun l => l.num)
  | none => []

/-! ## Facts about the scalar model -/

theorem modulus_pos (T : ScalarType) : 0 < T.modulus := by
  unfold ScalarType.modulus
  exact_mod_cast Nat.pos_pow_of_pos T.bits (by decide)

theorem wrap_inRange (T : ScalarType) (n : Int) : InRange T (wrap T n) := by
  have hpos := modulus_pos T
  have h1 := Int.emod_nonneg (n - T.min) (ne_of_gt hpos)
  have h2 := Int.emod_lt_of_pos (n - T.min) hpos
  unfold InRange wrap
  omega

theorem wrap_of_inRange (T : ScalarType) (n : Int) (h : InRange T n) : wrap T n = n := by
  unfold InRange at h
  unfold wrap
  rw [Int.emod_eq_of_lt (by omega) (by omega)]
  omega

theorem wrap_sub_emod (T : ScalarType) (n : Int) : (wrap T n - n) % T.modulus = 0 := by
  unfold wrap
  rw [Int.emod_def (n - T.min) T.modulus]
  have : n - T.min - T.modulus * ((n - T.min) / T.modulus) + T.min - n
      = T.modulus * (-((n - T.min) / T.modulus)) := by ring
  rw [this]
  exact Int.mul_emod_right _ _

theorem wrap_isFixedWidth (T : ScalarType) (n : Int) : IsFixedWidth T n (wrap T n) :=
  ⟨wrap_inRange T n, wrap_sub_emod T n⟩

theorem wrap_congr (T : ScalarType) (a b : Int) (h : (a - b) % T.modulus = 0) :
    wrap T a = wrap T b := by
  unfold wrap
  have hab : (a - T.min) % T.modulus = (b - T.min) % T.modulus := by
    have e : a - T.min = (b - T.min) + (a - b) := by ring
    rw [e, Int.add_emod, h, add_zero, Int.emod_emod]
  rw [hab]

theorem wrap_wrap (T : ScalarType) (n : Int) : wrap T (wrap T n) = wrap T n :=
  wrap_of_inRange T _ (wrap_inRange T n)

theorem modulus_dvd_of_bits_le (V E : ScalarType) (h : V.bits ≤ E.bits) :
    V.modulus ∣ E.modulus := by
  unfold ScalarType.modulus
  exact Int.natCast_dvd_natCast.mpr (Nat.pow_dvd_pow 2 h)

/-- Conversion through a type at least as wide loses nothing that the final conversion
keeps. -/
theorem wrap_wrap_of_bits_le (V E : ScalarType) (h : V.bits ≤ E.bits) (n : Int) :
    wrap V (wrap E n) = wrap V n := by
  apply wrap_congr
  obtain ⟨d, hd⟩ := modulus_dvd_of_bits_le V E h
  have h0 := wrap_sub_emod E n
  obtain ⟨q, hq⟩ := Int.dvd_of_emod_eq_zero h0
  rw [hq, hd, mul_assoc]
  exact Int.mul_emod_right _ _

theorem zero_inRange (T : ScalarType) : InRange T 0 := by
  have hpos := modulus_pos T
  unfold InRange ScalarType.min
  split <;> omega

theorem wrap_emod (T : ScalarType) (n : Int) : wrap T n % T.modulus = n % T.modulus := by
  unfold wrap
  rw [Int.emod_add_emod]
  congr 1
  omega

theorem toBits_lt (T : ScalarType) (n : Int) : toBits T n < 2 ^ T.bits := by
  have hpos := modulus_pos T
  have h1 := Int.emod_nonneg n (ne_of_gt hpos)
  have h2 := Int.emod_lt_of_pos n hpos
  unfold toBits
  rw [Int.toNat_lt h1]
  exact h2

theorem toBits_wrap (T : ScalarType) (n : Int) : toBits T (wrap T n) = toBits T n := by
  unfold toBits
  rw [wrap_emod]

theorem toBits_natCast (T : ScalarType) (m : Nat) (h : m < 2 ^ T.bits) :
    toBits T (m : Int) = m := by
  unfold toBits ScalarType.modulus
  rw [← Int.natCast_mod, Nat.mod_eq_of_lt h, Int.toNat_natCast]

theorem toBits_and (V : ScalarType) (a b : Int) :
    toBits V (Scalar.and V a b) = toBits V a &&& toBits V b := by
  unfold Scalar.and
  rw [toBits_wrap]
  exact toBits_natCast V _ (Nat.and_lt_two_pow _ (toBits_lt V b))

theorem toBits_or (V : ScalarType) (a b : Int) :
    toBits V (Scalar.or V a b) = toBits V a ||| toBits V b := by
  unfold Scalar.or
  rw [toBits_wrap]
  exact toBits_natCast V _ (Nat.or_lt_two_pow (toBits_lt V a) (toBits_lt V b))

theorem toBits_xor (V : ScalarType) (a b : Int) :
    toBits V (Scalar.xor V a b) = toBits V a ^^^ toBits V b := by
  unfold Scalar.xor
  rw [toBits_wrap]
  exact toBits_natCast V _ (Nat.xor_lt_two_pow (toBits_lt V a) (toBits_lt V b))

theorem TypeName.eq_of_value {V : ScalarType} {a b : TypeName V} (h : a.value = b.value) :
    a = b := by
  cases a
  cases b
  simp only [TypeName.mk.injEq]
  exact h

theorem store_leaves {V : ScalarType} (r : Int) : (TypeName.store r : Call V).Leaves r :=
  ⟨rfl, rfl⟩

/-- The round trip through line 102 and line 103 returns the argument when the argument is
representable both in `enum_type` and in `value_type`. -/
theorem of_value_round_trip (V E : ScalarType) (v : Int) (hE : InRange E v)
    (hV : InRange V v) : (TypeName.of_value V E v).to_value_type = v := by
  unfold TypeName.of_value TypeName.to_value_type
  simp only [wrap_of_inRange E v hE, wrap_of_inRange V v hV]

/-- The round trip through line 102 and line 103 returns the argument whenever
`enum_type` is at least as wide as `value_type`. -/
theorem of_value_round_trip_of_bits_le (V E : ScalarType) (h : V.bits ≤ E.bits) (v : Int)
    (hV : InRange V v) : (TypeName.of_value V E v).to_value_type = v := by
  unfold TypeName.of_value TypeName.to_value_type
  rw [wrap_wrap_of_bits_le V E h, wrap_of_inRange V v hV]

theorem shr_inRange (V : ScalarType) (v : Int) (n : Nat) (h : InRange V v) :
    InRange V (v / 2 ^ n) := by
  have h0 := zero_inRange V
  have hp : (0 : Int) < 2 ^ n := by positivity
  unfold InRange at *
  rcases le_or_lt 0 v with hv | hv
  · have h1 := Int.ediv_nonneg hv (le_of_lt hp)
    have h2 := Int.ediv_le_self (2 ^ n) hv
    omega
  · have h1 : v / 2 ^ n < 0 := Int.ediv_neg' hv hp
    have h2 : v ≤ v / 2 ^ n := by
      apply Int.le_ediv_of_mul_le hp
      nlinarith
    omega

/-! ## Construction and conversion -/

/-- C1, evaluated where the round trip breaks: with `value_type = long long` and an
`enum_type` of at most 32 bits (as it is for the documented constants, which all fit in
`int`), the value `4294967296` is a value of `value_type`, yet explicit construction from
it followed by the explicit conversion does not return it.  With a 32-bit `enum_type`,
signed or unsigned, the round trip returns `0`. -/
theorem C1_round_trip_breaks_through_enum_cast (E : ScalarType) (h : E.bits ≤ 32) :
    InRange ScalarType.long_long 4294967296
    ∧ (TypeName.of_value ScalarType.long_long E 4294967296).to_value_type ≠ 4294967296
    ∧ (TypeName.of_value ScalarType.long_long ScalarType.unsigned_int 4294967296).to_value_type = 0
    ∧ (TypeName.of_value ScalarType.long_long ScalarType.int 4294967296).to_value_type = 0 := by
  refine ⟨by decide, ?_, by decide, by decide⟩
  have hpos := modulus_pos E
  have hM : E.modulus ≤ 4294967296 := by
    unfold ScalarType.modulus
    exact_mod_cast Nat.pow_le_pow_right (by decide : 0 < 2) h
  have hmin : -4294967296 ≤ E.min ∧ E.min ≤ 0 := by
    unfold ScalarType.min
    split <;> omega
  have hw := wrap_inRange E 4294967296
  have hin : InRange ScalarType.long_long (wrap E 4294967296) := by
    unfold InRange at hw ⊢
    have e1 : ScalarType.long_long.min = -9223372036854775808 := by decide
    have e2 : ScalarType.long_long.modulus = 18446744073709551616 := by decide
    rw [e1, e2]
    omega
  have hlt : wrap E 4294967296 < 4294967296 := by
    unfold InRange at hw
    omega
  show wrap ScalarType.long_long (wrap E 4294967296) ≠ 4294967296
  rw [wrap_of_inRange _ _ hin]
  exact ne_of_lt hlt

/-- C1 at the representation of `enum_type` as `unsigned int`: the round trip of
`4294967296` through `long long` does not return it. -/
theorem C1_round_trip_breaks_through_enum_cast_witness :
    ScalarType.unsigned_int.bits ≤ 32
    ∧ (TypeName.of_value ScalarType.long_long ScalarType.unsigned_int 4294967296).to_value_type
        ≠ 4294967296 :=
  ⟨by decide, (C1_round_trip_breaks_through_enum_cast ScalarType.unsigned_int (by decide)).2.1⟩

/-- C2 fails as stated: with `value_type = unsigned char` the declared constant
`West = 270` is stored as `14`, and converting back yields `14`, not `270`. -/
theorem C2_counterexample :
    (TypeName.of_enum ScalarType.unsigned_char CompassDirection.West).to_value_type = 14
    ∧ (TypeName.of_enum ScalarType.unsigned_char CompassDirection.West).to_value_type
        ≠ CompassDirection.West := by
  decide

/-- C2, amended: for every declared constant whose literal `c` is representable in the
value type, constructing an instance from the constant and converting it back with the
explicit conversion yields exactly `c`. -/
theorem C2_constant_round_trip (V : ScalarType) (c : Int) (h : InRange V c) :
    (TypeName.of_enum V c).to_value_type = c := by
  unfold TypeName.of_enum TypeName.to_value_type
  exact wrap_of_inRange V c h

/-- C2 at the documented example: `North`, `South`, `East` and `West` of
`CompassDirection` over `int` all come back as declared. -/
theorem C2_constant_round_trip_witness :
    InRange CompassDirection.ValueType CompassDirection.West
    ∧ (TypeName.of_enum CompassDirection.ValueType CompassDirection.North).to_value_type = 0
    ∧ (TypeName.of_enum CompassDirection.ValueType CompassDirection.South).to_value_type = 180
    ∧ (TypeName.of_enum CompassDirection.ValueType CompassDirection.East).to_value_type = 90
    ∧ (TypeName.of_enum CompassDirection.ValueType CompassDirection.West).to_value_type = 270 :=
  ⟨by decide,
   C2_constant_round_trip CompassDirection.ValueType CompassDirection.North (by decide),
   C2_constant_round_trip CompassDirection.ValueType CompassDirection.South (by decide),
   C2_constant_round_trip CompassDirection.ValueType CompassDirection.East (by decide),
   C2_constant_round_trip CompassDirection.ValueType CompassDirection.West (by decide)⟩

/-! ## Compound assignment -/

/-- C3 fails as stated for `/=` and `%=`: over `int`, for the instance holding the
minimum `-2147483648` and the non-zero right-hand side `-1`, both operands being values
of `int`, the quotient is not representable, the built-in operation faults, and neither
`x /= k` nor `x %= k` leaves `x` holding a result, through either overload. -/
theorem C3_counterexample :
    InRange ScalarType.int (-2147483648)
    ∧ InRange ScalarType.int (-1)
    ∧ (-1 : Int) ≠ 0
    ∧ (⟨-2147483648⟩ : TypeName ScalarType.int).operator_div_assign (-1) = none
    ∧ (⟨-2147483648⟩ : TypeName ScalarType.int).operator_mod_assign (-1) = none
    ∧ (⟨-2147483648⟩ : TypeName ScalarType.int).operator_div_assign_ref ⟨-1⟩ = none
    ∧ (⟨-2147483648⟩ : TypeName ScalarType.int).operator_mod_assign_ref ⟨-1⟩ = none := by
  decide

/-- C3, amended: every compound assignment reads the stored value, applies the built-in
operation of the value type and writes the result back, returning the mutated receiver.
For `+=`, `-=`, `*=` the stored result is the fixed-width image of the exact sum,
difference or product; for `&=`, `|=`, `^=` the stored result is a value of the value type
each bit of which is the bitwise combination of the operand bits; for `/=` and `%=` with a
non-zero right-hand side and a representable quotient the stored result is the truncated
quotient or its remainder.  The overload taking another instance holding `k` gives the
same outcome as the overload taking the raw value `k`. -/
theorem C3_compound_assignment (V : ScalarType) (x : TypeName V) (k : Int) :
    ((x.operator_add_assign k).Leaves (wrap V (x.value + k))
      ∧ IsFixedWidth V (x.value + k) (x.operator_add_assign k).self.value)
    ∧ ((x.operator_sub_assign k).Leaves (wrap V (x.value - k))
      ∧ IsFixedWidth V (x.value - k) (x.operator_sub_assign k).self.value)
    ∧ ((x.operator_mul_assign k).Leaves (wrap V (x.value * k))
      ∧ IsFixedWidth V (x.value * k) (x.operator_mul_assign k).self.value)
    ∧ ((x.operator_and_assign k).Leaves (Scalar.and V x.value k)
      ∧ InRange V (x.operator_and_assign k).self.value
      ∧ ∀ i, (toBits V (x.operator_and_assign k).self.value).testBit i
          = ((toBits V x.value).testBit i && (toBits V k).testBit i))
    ∧ ((x.operator_or_assign k).Leaves (Scalar.or V x.value k)
      ∧ InRange V (x.operator_or_assign k).self.value
      ∧ ∀ i, (toBits V (x.operator_or_assign k).self.value).testBit i
          = ((toBits V x.value).testBit i || (toBits V k).testBit i))
    ∧ ((x.operator_xor_assign k).Leaves (Scalar.xor V x.value k)
      ∧ InRange V (x.operator_xor_assign k).self.value
      ∧ ∀ i, (toBits V (x.operator_xor_assign k).self.value).testBit i
          = ((toBits V x.value).testBit i ^^ (toBits V k).testBit i))
    ∧ (k ≠ 0 → Scalar.div_overflows V x.value k = false →
        ∃ c, x.operator_div_assign k = some c
          ∧ c.Leaves (wrap V (Int.tdiv x.value k))
          ∧ (InRange V (Int.tdiv x.value k) → c.Leaves (Int.tdiv x.value k)))
    ∧ (k ≠ 0 → Scalar.div_overflows V x.value k = false →
        ∃ c, x.operator_mod_assign k = some c
          ∧ c.Leaves (wrap V (Int.tmod x.value k))
          ∧ (InRange V (Int.tmod x.value k) → c.Leaves (Int.tmod x.value k)))
    ∧ (x.operator_add_assign_ref ⟨k⟩ = x.operator_add_assign k
      ∧ x.operator_sub_assign_ref ⟨k⟩ = x.operator_sub_assign k
      ∧ x.operator_mul_assign_ref ⟨k⟩ = x.operator_mul_assign k
      ∧ x.operator_div_assign_ref ⟨k⟩ = x.operator_div_assign k
      ∧ x.operator_mod_assign_ref ⟨k⟩ = x.operator_mod_assign k
      ∧ x.operator_and_assign_ref ⟨k⟩ = x.operator_and_assign k
      ∧ x.operator_or_assign_ref ⟨k⟩ = x.operator_or_assign k
      ∧ x.operator_xor_assign_ref ⟨k⟩ = x.operator_xor_assign k) := by
  refine ⟨⟨store_leaves _, wrap_isFixedWidth V _⟩, ⟨store_leaves _, wrap_isFixedWidth V _⟩,
    ⟨store_leaves _, wrap_isFixedWidth V _⟩, ⟨store_leaves _, wrap_inRange V _, ?_⟩,
    ⟨store_leaves _, wrap_inRange V _, ?_⟩, ⟨store_leaves _, wrap_inRange V _, ?_⟩, ?_, ?_,
    ⟨rfl, rfl, rfl, rfl, rfl, rfl, rfl, rfl⟩⟩
  · intro i
    show (toBits V (Scalar.and V x.value k)).testBit i = _
    rw [toBits_and, Nat.testBit_and]
  · intro i
    show (toBits V (Scalar.or V x.value k)).testBit i = _
    rw [toBits_or, Nat.testBit_or]
  · intro i
    show (toBits V (Scalar.xor V x.value k)).testBit i = _
    rw [toBits_xor, Nat.testBit_xor]
  · intro hk ho
    refine ⟨TypeName.store (wrap V (Int.tdiv x.value k)), ?_, store_leaves _, fun h => ?_⟩
    · simp [TypeName.operator_div_assign, Scalar.div, hk, ho]
    · exact ⟨wrap_of_inRange V _ h, rfl⟩
  · intro hk ho
    refine ⟨TypeName.store (wrap V (Int.tmod x.value k)), ?_, store_leaves _, fun h => ?_⟩
    · simp [TypeName.operator_mod_assign, Scalar.mod, hk, ho]
    · exact ⟨wrap_of_inRange V _ h, rfl⟩

/-- C3 at the documented `direction -= 20`, and at `7 /= 2`, `7 %= 2` over `int`: the
receiver is left holding `250`, `3` and `1`. -/
theorem C3_compound_assignment_witness :
    ((⟨270⟩ : TypeName CompassDirection.ValueType).operator_sub_assign 20).Leaves 250
    ∧ (2 : Int) ≠ 0
    ∧ Scalar.div_overflows CompassDirection.ValueType 7 2 = false
    ∧ (∃ c, (⟨7⟩ : TypeName CompassDirection.ValueType).operator_div_assign 2 = some c
        ∧ c.Leaves 3)
    ∧ (∃ c, (⟨7⟩ : TypeName CompassDirection.ValueType).operator_mod_assign 2 = some c
        ∧ c.Leaves 1) :=
  have h := C3_compound_assignment CompassDirection.ValueType ⟨270⟩ 20
  have h7 := C3_compound_assignment CompassDirection.ValueType ⟨7⟩ 2
  ⟨h.2.1.1, by decide, by decide,
   (h7.2.2.2.2.2.2.1 (by decide) (by decide)).imp (fun _ hc => ⟨hc.1, hc.2.2 (by decide)⟩),
   (h7.2.2.2.2.2.2.2.1 (by decide) (by decide)).imp (fun _ hc => ⟨hc.1, hc.2.2 (by decide)⟩)⟩

/-! ## Increment and decrement -/

/-- C4: pre-increment leaves the receiver holding the successor of its value under the
increment of the value type (the fixed-width image of `v + 1`, which is `v + 1` itself
whenever `v + 1` is representable), and returns the mutated receiver. -/
theorem C4_pre_increment (V : ScalarType) (x : TypeName V) :
    x.operator_pre_inc.Leaves (Scalar.inc V x.value)
    ∧ IsFixedWidth V (x.value + 1) x.operator_pre_inc.self.value
    ∧ (InRange V (x.value + 1) → x.operator_pre_inc.Leaves (x.value + 1)) := by
  refine ⟨⟨rfl, rfl⟩, wrap_isFixedWidth V _, fun h => ⟨?_, rfl⟩⟩
  exact wrap_of_inRange V _ h

/-- C4 at the documented scenario: an instance holding `270` becomes one holding `271`. -/
theorem C4_pre_increment_witness :
    InRange CompassDirection.ValueType (270 + 1)
    ∧ (⟨270⟩ : TypeName CompassDirection.ValueType).operator_pre_inc.Leaves 271 :=
  ⟨by decide, (C4_pre_increment CompassDirection.ValueType ⟨270⟩).2.2 (by decide)⟩

/-- C5: post-increment returns a new instance holding the value from before the
increment and leaves the receiver holding the successor, the same state pre-increment
leaves. -/
theorem C5_post_increment (V : ScalarType) (x : TypeName V) :
    x.operator_post_inc.ret = x
    ∧ x.operator_post_inc.ret.value = x.value
    ∧ x.operator_post_inc.self.value = Scalar.inc V x.value
    ∧ x.operator_post_inc.self = x.operator_pre_inc.self
    ∧ IsFixedWidth V (x.value + 1) x.operator_post_inc.self.value
    ∧ (InRange V (x.value + 1) → x.operator_post_inc.self.value = x.value + 1) := by
  refine ⟨rfl, rfl, rfl, rfl, wrap_isFixedWidth V _, fun h => ?_⟩
  exact wrap_of_inRange V _ h

/-- C5 at `270` over `int`: the call returns an instance holding `270` and the receiver
holds `271`. -/
theorem C5_post_increment_witness :
    InRange CompassDirection.ValueType (270 + 1)
    ∧ (⟨270⟩ : TypeName CompassDirection.ValueType).operator_post_inc.ret.value = 270
    ∧ (⟨270⟩ : TypeName CompassDirection.ValueType).operator_post_inc.self.value = 271 :=
  have h := C5_post_increment CompassDirection.ValueType ⟨270⟩
  ⟨by decide, h.2.1, h.2.2.2.2.2 (by decide)⟩

/-- C6: decrement mirrors increment.  Pre-decrement leaves the receiver holding the
predecessor of its value (the fixed-width image of `v - 1`, which is `v - 1` itself
whenever representable) and returns the mutated receiver; post-decrement returns a
new instance holding the prior value and leaves the receiver holding the predecessor. -/
theorem C6_decrement (V : ScalarType) (x : TypeName V) :
    x.operator_pre_dec.Leaves (Scalar.dec V x.value)
    ∧ IsFixedWidth V (x.value - 1) x.operator_pre_dec.self.value
    ∧ (InRange V (x.value - 1) → x.operator_pre_dec.Leaves (x.value - 1))
    ∧ x.operator_post_dec.ret = x
    ∧ x.operator_post_dec.self = x.operator_pre_dec.self
    ∧ (InRange V (x.value - 1) → x.operator_post_dec.self.value = x.value - 1) := by
  refine ⟨⟨rfl, rfl⟩, wrap_isFixedWidth V _, fun h => ⟨?_, rfl⟩, rfl, rfl, fun h => ?_⟩
  · exact wrap_of_inRange V _ h
  · exact wrap_of_inRange V _ h

/-- C6 at `270` over `int`: both forms leave the receiver holding `269`, and the post
form returns an instance holding `270`. -/
theorem C6_decrement_witness :
    InRange CompassDirection.ValueType (270 - 1)
    ∧ (⟨270⟩ : TypeName CompassDirection.ValueType).operator_pre_dec.Leaves 269
    ∧ (⟨270⟩ : TypeName CompassDirection.ValueType).operator_post_dec.ret = ⟨270⟩
    ∧ (⟨270⟩ : TypeName CompassDirection.ValueType).operator_post_dec.self.value = 269 :=
  have h := C6_decrement CompassDirection.ValueType ⟨270⟩
  ⟨by decide, h.2.2.1 (by decide), h.2.2.2.1, h.2.2.2.2.2 (by decide)⟩

/-! ## Division and modulo by zero -/

/-- C7: `/=` and `%=` fail exactly when the built-in operation of the value type fails, in
both overloads; the built-in operation fails exactly for a zero right-hand side and for a
quotient that is not representable, so the calls fail when the right-hand side is zero;
and whenever the built-in operation yields `r` the call succeeds, leaves the receiver
holding `r` and returns it. -/
theorem C7_division_faults_are_inherited (V : ScalarType) (x y : TypeName V) (k : Int) :
    ((x.operator_div_assign k = none ↔ Scalar.div V x.value k = none)
      ∧ (x.operator_div_assign_ref y = none ↔ Scalar.div V x.value y.value = none)
      ∧ (x.operator_mod_assign k = none ↔ Scalar.mod V x.value k = none)
      ∧ (x.operator_mod_assign_ref y = none ↔ Scalar.mod V x.value y.value = none))
    ∧ (x.operator_div_assign 0 = none ∧ x.operator_div_assign_ref ⟨0⟩ = none
      ∧ x.operator_mod_assign 0 = none ∧ x.operator_mod_assign_ref ⟨0⟩ = none)
    ∧ (Scalar.div V x.value k = none ↔ (k = 0 ∨ Scalar.div_overflows V x.value k = true))
    ∧ (Scalar.mod V x.value k = none ↔ (k = 0 ∨ Scalar.div_overflows V x.value k = true))
    ∧ (∀ r, Scalar.div V x.value k = some r →
        ∃ c, x.operator_div_assign k = some c ∧ c.Leaves r)
    ∧ (∀ r, Scalar.div V x.value y.value = some r →
        ∃ c, x.operator_div_assign_ref y = some c ∧ c.Leaves r)
    ∧ (∀ r, Scalar.mod V x.value k = some r →
        ∃ c, x.operator_mod_assign k = some c ∧ c.Leaves r)
    ∧ (∀ r, Scalar.mod V x.value y.value = some r →
        ∃ c, x.operator_mod_assign_ref y = some c ∧ c.Leaves r) := by
  refine ⟨⟨?_, ?_, ?_, ?_⟩, ⟨?_, ?_, ?_, ?_⟩, ?_, ?_, ?_, ?_, ?_, ?_⟩
  · unfold TypeName.operator_div_assign; cases Scalar.div V x.value k <;> simp
  · unfold TypeName.operator_div_assign_ref; cases Scalar.div V x.value y.value <;> simp
  · unfold TypeName.operator_mod_assign; cases Scalar.mod V x.value k <;> simp
  · unfold TypeName.operator_mod_assign_ref; cases Scalar.mod V x.value y.value <;> simp
  · simp [TypeName.operator_div_assign, Scalar.div]
  · simp [TypeName.operator_div_assign_ref, Scalar.div]
  · simp [TypeName.operator_mod_assign, Scalar.mod]
  · simp [TypeName.operator_mod_assign_ref, Scalar.mod]
  · unfold Scalar.div
    by_cases hc : k = 0 ∨ Scalar.div_overflows V x.value k = true
    · simp [hc]
    · simp [hc]
  · unfold Scalar.mod
    by_cases hc : k = 0 ∨ Scalar.div_overflows V x.value k = true
    · simp [hc]
    · simp [hc]
  · intro r h
    exact ⟨TypeName.store r, by simp [TypeName.operator_div_assign, h], store_leaves r⟩
  · intro r h
    exact ⟨TypeName.store r, by simp [TypeName.operator_div_assign_ref, h], store_leaves r⟩
  · intro r h
    exact ⟨TypeName.store r, by simp [TypeName.operator_mod_assign, h], store_leaves r⟩
  · intro r h
    exact ⟨TypeName.store r, by simp [TypeName.operator_mod_assign_ref, h], store_leaves r⟩

/-- C7 over `int`: at `-7 /= 2` and `-7 %= 2` the built-in operations yield `-3` and
`-1`, and so do the calls; at the minimum divided by `-1` the built-in division faults
and so does the call. -/
theorem C7_division_faults_are_inherited_witness :
    Scalar.div CompassDirection.ValueType (-7) 2 = some (-3)
    ∧ (∃ c, (⟨-7⟩ : TypeName CompassDirection.ValueType).operator_div_assign 2 = some c
        ∧ c.Leaves (-3))
    ∧ Scalar.mod CompassDirection.ValueType (-7) 2 = some (-1)
    ∧ (∃ c, (⟨-7⟩ : TypeName CompassDirection.ValueType).operator_mod_assign_ref ⟨2⟩ = some c
        ∧ c.Leaves (-1))
    ∧ Scalar.div CompassDirection.ValueType (-2147483648) (-1) = none
    ∧ (⟨-2147483648⟩ : TypeName CompassDirection.ValueType).operator_div_assign (-1) = none :=
  have h := C7_division_faults_are_inherited CompassDirection.ValueType ⟨-7⟩ ⟨2⟩ 2
  have hmin := C7_division_faults_are_inherited CompassDirection.ValueType ⟨-2147483648⟩ ⟨-1⟩ (-1)
  ⟨by decide, h.2.2.2.2.1 (-3) (by decide), by decide, h.2.2.2.2.2.2.2 (-1) (by decide),
   by decide, hmin.1.1.mpr (by decide)⟩

/-! ## Instance identity -/

/-- C8 fails as stated: for `CompassDirection(CompassDirection::East)` and
`CompassDirection(90)`, which hold the same underlying value `90`, the expression `a == b`
is not admitted, because lines 98-127 declare no `operator ==` and an instance does not
convert to `value_type` implicitly; the comparison of the explicit conversions is
admitted and holds. -/
theorem C8_counterexample :
    (TypeName.of_enum CompassDirection.ValueType CompassDirection.East).to_value_type = 90
    ∧ (TypeName.of_value CompassDirection.ValueType ScalarType.unsigned_int 90).to_value_type
        = 90
    ∧ compare_instances (TypeName.of_enum CompassDirection.ValueType CompassDirection.East)
        (TypeName.of_value CompassDirection.ValueType ScalarType.unsigned_int 90) = .ill_formed
    ∧ compare_instances (TypeName.of_enum CompassDirection.ValueType CompassDirection.East)
        (TypeName.of_value CompassDirection.ValueType ScalarType.unsigned_int 90) ≠ .ok true
    ∧ equality_operators = []
    ∧ find_member "operator ==" = none
    ∧ implicit_to_value_type = false
    ∧ compare_converted (TypeName.of_enum CompassDirection.ValueType CompassDirection.East)
        (TypeName.of_value CompassDirection.ValueType ScalarType.unsigned_int 90) = true := by
  decide

/-- C8, amended: two instances are not compared by `a == b`, which the declarations do
not admit, but through the explicit conversion: `value_type(a) == value_type(b)` holds
exactly when the stored values are equal, and an instance has no state besides its stored
value, so this is also exactly when the two instances are the same, whatever built them.
In particular, for a constant whose literal `c` is representable in `enum_type` and in
`value_type`, the instance built from the constant, a copy of it, the instance built
explicitly from `c`, and the instance reached from zero by `+= c` all compare equal this
way. -/
theorem C8_equality_is_value_equality (V E : ScalarType) (c : Int) (hE : InRange E c)
    (hV : InRange V c) :
    (∀ a b : TypeName V, compare_instances a b = .ill_formed)
    ∧ (∀ a b : TypeName V, compare_converted a b = true ↔ a.value = b.value)
    ∧ (∀ a b : TypeName V, compare_converted a b = true ↔ a = b)
    ∧ (∀ a b : TypeName V, a = b ↔ a.to_value_type = b.to_value_type)
    ∧ compare_converted (TypeName.of_enum V c) (TypeName.of_value V E c) = true
    ∧ compare_converted (TypeName.of_enum V c).copy (TypeName.of_value V E c) = true
    ∧ compare_converted ((TypeName.of_enum V 0).operator_add_assign c).self
        (TypeName.of_value V E c) = true
    ∧ (TypeName.of_value V E c).to_value_type = c
    ∧ TypeName.of_enum V c = TypeName.of_value V E c
    ∧ (TypeName.of_enum V c).copy = TypeName.of_value V E c
    ∧ ((TypeName.of_enum V 0).operator_add_assign c).self = TypeName.of_value V E c := by
  have h1 : wrap E c = c := wrap_of_inRange E c hE
  have h2 : wrap V c = c := wrap_of_inRange V c hV
  have h3 : wrap V 0 = 0 := wrap_of_inRange V 0 (zero_inRange V)
  have hval : ∀ a b : TypeName V, compare_converted a b = true ↔ a.value = b.value := by
    intro a b
    simp [compare_converted, TypeName.to_value_type]
  have hext : ∀ a b : TypeName V, a.value = b.value ↔ a = b := fun a b =>
    ⟨TypeName.eq_of_value, fun h => by rw [h]⟩
  have e1 : TypeName.of_enum V c = TypeName.of_value V E c := by
    simp only [TypeName.of_enum, TypeName.of_value, h1]
  have e2 : (TypeName.of_enum V c).copy = TypeName.of_value V E c := by
    simp only [TypeName.of_enum, TypeName.of_value, TypeName.copy, h1]
  have e3 : ((TypeName.of_enum V 0).operator_add_assign c).self = TypeName.of_value V E c := by
    simp only [TypeName.of_enum, TypeName.of_value, TypeName.operator_add_assign,
      TypeName.store, Scalar.add, h1, h2, h3, zero_add]
  refine ⟨fun a b => rfl, hval, fun a b => (hval a b).trans (hext a b),
    fun a b => (hext a b).symm, ?_, ?_, ?_, ?_, e1, e2, e3⟩
  · exact (hval _ _).mpr (by rw [e1])
  · exact (hval _ _).mpr (by rw [e2])
  · exact (hval _ _).mpr (by rw [e3])
  · simp only [TypeName.of_value, TypeName.to_value_type, h1, h2]

/-- C8 at the documented example: `CompassDirection(CompassDirection::East)` and
`CompassDirection(90)` compare equal through the explicit conversion, with `enum_type`
represented as `unsigned int`. -/
theorem C8_equality_is_value_equality_witness :
    InRange ScalarType.unsigned_int CompassDirection.East
    ∧ InRange CompassDirection.ValueType CompassDirection.East
    ∧ compare_converted (TypeName.of_enum CompassDirection.ValueType CompassDirection.East)
        (TypeName.of_value CompassDirection.ValueType ScalarType.unsigned_int 90) = true
    ∧ TypeName.of_enum CompassDirection.ValueType CompassDirection.East
        = TypeName.of_value CompassDirection.ValueType ScalarType.unsigned_int 90 :=
  have h := C8_equality_is_value_equality CompassDirection.ValueType ScalarType.unsigned_int
    CompassDirection.East (by decide) (by decide)
  ⟨by decide, by decide, h.2.2.2.2.1, h.2.2.2.2.2.2.2.2.1⟩

/-! ## Name rendering -/

/-- C9, evaluated on the declared members: lines 98-127 declare no member named `c_str`,
so the documented call `direction.c_str()` finds nothing to call, while the members that
are declared are found. -/
theorem C9_no_c_str_member :
    find_member "c_str" = none
    ∧ members.all (fun m => m.name != "c_str") = true
    ∧ (find_member "get").isSome = true := by
  decide

/-! ## Shifts -/

/-- C10 fails as stated: for an instance `x` holding `1` and an instance `y` holding `3`
over `int`, the expression `x <<= y` is not admitted by the declarations (no overload of
`operator <<=` takes an instance, and the conversion to `value_type` is explicit), and no
more is `x >>= y`; the raw forms `x <<= 3` and `x >>= 3` are. -/
theorem C10_counterexample :
    compound_assign .shl (⟨1⟩ : TypeName ScalarType.int) (.inst ⟨3⟩) = .ill_formed
    ∧ compound_assign .shr (⟨1⟩ : TypeName ScalarType.int) (.inst ⟨3⟩) = .ill_formed
    ∧ compound_assign .shl (⟨1⟩ : TypeName ScalarType.int) (.raw 3)
        = .ok ⟨⟨8⟩, ⟨8⟩⟩
    ∧ compound_assign .shr (⟨1⟩ : TypeName ScalarType.int) (.raw 3)
        = .ok ⟨⟨0⟩, ⟨0⟩⟩ := by
  decide

/-- C10, amended: the shifts take a raw value only.  For every instance `x` holding `v`
and every raw count `k` with `0 <= k < bits`, `x <<= k` leaves `x` holding the
fixed-width image of `v * 2 ^ k` and `x >>= k` leaves `x` holding `v / 2 ^ k` rounded
down, and each returns the mutated receiver.  With another instance as right-hand operand
the shifts are not admitted, whereas each of the other eight compound operators has an
overload for it. -/
theorem C10_shift_assignment (V : ScalarType) (x y : TypeName V) (k : Int) (h0 : 0 ≤ k)
    (h1 : k < (V.bits : Int)) :
    (∃ c, x.operator_shl_assign k = some c ∧ c.Leaves (wrap V (x.value * 2 ^ k.toNat))
        ∧ IsFixedWidth V (x.value * 2 ^ k.toNat) c.self.value
        ∧ compound_assign .shl x (.raw k) = .ok c)
    ∧ (∃ c, x.operator_shr_assign k = some c ∧ c.Leaves (wrap V (x.value / 2 ^ k.toNat))
        ∧ (InRange V x.value → c.Leaves (x.value / 2 ^ k.toNat))
        ∧ compound_assign .shr x (.raw k) = .ok c)
    ∧ compound_assign .shl x (.inst y) = .ill_formed
    ∧ compound_assign .shr x (.inst y) = .ill_formed
    ∧ (∀ op : CompoundOp,
        (overload op (Operand.inst y)).isSome = (op != .shl && op != .shr)) := by
  have hk : 0 ≤ k ∧ k < (V.bits : Int) := ⟨h0, h1⟩
  have hshl : x.operator_shl_assign k
      = some (TypeName.store (wrap V (x.value * 2 ^ k.toNat))) := by
    simp [TypeName.operator_shl_assign, Scalar.shl, hk]
  have hshr : x.operator_shr_assign k
      = some (TypeName.store (wrap V (x.value / 2 ^ k.toNat))) := by
    simp [TypeName.operator_shr_assign, Scalar.shr, hk]
  have hl : overload .shl (Operand.raw k : Operand V)
      = some ⟨126, "operator <<=", .value_type, false⟩ := rfl
  have hr : overload .shr (Operand.raw k : Operand V)
      = some ⟨127, "operator >>=", .value_type, false⟩ := rfl
  refine ⟨⟨_, hshl, store_leaves _, wrap_isFixedWidth V _, ?_⟩,
    ⟨_, hshr, store_leaves _, fun h => ⟨?_, rfl⟩, ?_⟩, ?_, ?_, ?_⟩
  · simp only [compound_assign, hl, hshl, Outcome.of_option]
  · exact wrap_of_inRange V _ (shr_inRange V x.value k.toNat h)
  · simp only [compound_assign, hr, hshr, Outcome.of_option]
  · rfl
  · rfl
  · intro op
    cases op <;> rfl

/-- C10 at `x` holding `-8` over `int` and the count `3`: `x <<= 3` leaves `-64`,
`x >>= 3` leaves `-1`. -/
theorem C10_shift_assignment_witness :
    (0 : Int) ≤ 3 ∧ (3 : Int) < (ScalarType.int.bits : Int)
    ∧ InRange ScalarType.int (-8)
    ∧ compound_assign .shl (⟨-8⟩ : TypeName ScalarType.int) (.raw 3) = .ok ⟨⟨-64⟩, ⟨-64⟩⟩
    ∧ compound_assign .shr (⟨-8⟩ : TypeName ScalarType.int) (.raw 3) = .ok ⟨⟨-1⟩, ⟨-1⟩⟩
    ∧ compound_assign .shl (⟨-8⟩ : TypeName ScalarType.int) (.inst ⟨3⟩) = .ill_formed :=
  have h := C10_shift_assignment ScalarType.int ⟨-8⟩ ⟨3⟩ 3 (by decide) (by decide)
  ⟨by decide, by decide, by decide,
   by obtain ⟨c, hc, _, _, hd⟩ := h.1
      have : c = ⟨⟨-64⟩, ⟨-64⟩⟩ := by
        have : some c = some (⟨⟨-64⟩, ⟨-64⟩⟩ : Call ScalarType.int) := hc.symm.trans (by decide)
        exact Option.some.inj this
      rw [hd, this],
   by obtain ⟨c, hc, _, _, hd⟩ := h.2.1
      have : c = ⟨⟨-1⟩, ⟨-1⟩⟩ := by
        have : some c = some (⟨⟨-1⟩, ⟨-1⟩⟩ : Call ScalarType.int) := hc.symm.trans (by decide)
        exact Option.some.inj this
      rw [hd, this],
   h.2.2.1⟩

/-! ## Facts used by the algebraic laws -/

theorem wrap_add_left (V : ScalarType) (a b : Int) : wrap V (wrap V a + b) = wrap V (a + b) := by
  apply wrap_congr
  have e : wrap V a + b - (a + b) = wrap V a - a := by ring
  rw [e]
  exact wrap_sub_emod V a

theorem wrap_add_right (V : ScalarType) (a b : Int) :
    wrap V (a + wrap V b) = wrap V (a + b) := by
  apply wrap_congr
  have e : a + wrap V b - (a + b) = wrap V b - b := by ring
  rw [e]
  exact wrap_sub_emod V b

theorem wrap_sub_left (V : ScalarType) (a b : Int) : wrap V (wrap V a - b) = wrap V (a - b) := by
  apply wrap_congr
  have e : wrap V a - b - (a - b) = wrap V a - a := by ring
  rw [e]
  exact wrap_sub_emod V a

theorem wrap_toBits (V : ScalarType) (v : Int) : wrap V (toBits V v : Int) = wrap V v := by
  apply wrap_congr
  have hpos := modulus_pos V
  unfold toBits
  rw [Int.toNat_of_nonneg (Int.emod_nonneg v (ne_of_gt hpos)), Int.sub_emod, Int.emod_emod,
    sub_self, Int.zero_emod]

theorem inc_dec_cancel (V : ScalarType) (v : Int) (h : InRange V v) :
    Scalar.dec V (Scalar.inc V v) = v := by
  unfold Scalar.dec Scalar.inc
  rw [wrap_sub_left, add_sub_cancel_right, wrap_of_inRange V v h]

theorem dec_inc_cancel (V : ScalarType) (v : Int) (h : InRange V v) :
    Scalar.inc V (Scalar.dec V v) = v := by
  unfold Scalar.dec Scalar.inc
  rw [wrap_add_left, sub_add_cancel, wrap_of_inRange V v h]

theorem add_sub_cancel_wrap (V : ScalarType) (v k : Int) (h : InRange V v) :
    Scalar.sub V (Scalar.add V v k) k = v := by
  unfold Scalar.sub Scalar.add
  rw [wrap_sub_left, add_sub_cancel_right, wrap_of_inRange V v h]

theorem xor_xor_cancel (V : ScalarType) (v k : Int) (h : InRange V v) :
    Scalar.xor V (Scalar.xor V v k) k = v := by
  have e : Scalar.xor V (Scalar.xor V v k) k
      = wrap V ((toBits V (Scalar.xor V v k) ^^^ toBits V k : Nat) : Int) := rfl
  rw [e, toBits_xor, Nat.xor_cancel_right, wrap_toBits, wrap_of_inRange V v h]

/-! ## The accessors -/

/-- C11, evaluated on lines 104-105: for every instance, the mutable `get()` is not
admitted (its `return` binds `value_type&` to the prvalue `static_cast<value_type>(value)`),
so the documented `int value = direction.get();` yields nothing; the read-only `get()`
returns a reference to a temporary copy of the stored value that is destroyed before the
caller can read it.  Neither form yields the stored value that the explicit conversion
returns, which is what a reference to the data member would give. -/
theorem C11_get_does_not_yield_the_stored_value (V : ScalarType) (x : TypeName V) :
    x.get = .ill_formed
    ∧ x.read_through_get = .ill_formed
    ∧ x.get_const = .ok (.expired_temporary x.value)
    ∧ x.read_through_get_const = .fault
    ∧ x.read_through_get ≠ .ok x.to_value_type
    ∧ x.read_through_get_const ≠ .ok x.to_value_type
    ∧ x.read .member = some x.to_value_type := by
  refine ⟨rfl, rfl, rfl, rfl, ?_, ?_, rfl⟩
  · intro h
    cases h
  · intro h
    cases h

/-- C12, evaluated on line 104: for every instance `x` and every `w`, the statement
`x.get() = w;` is not admitted, because the mutable `get()` does not return a reference to
the data member; writing `w` through a reference to the data member is what would leave
`x` holding `w`. -/
theorem C12_get_gives_no_reference_to_write_through (V : ScalarType) (x : TypeName V)
    (w : Int) :
    x.write_through_get w = .ill_formed
    ∧ x.write_through_get w ≠ .ok ⟨w⟩
    ∧ x.get ≠ .ok .member
    ∧ x.write w .member = some ⟨w⟩ := by
  refine ⟨rfl, ?_, ?_, rfl⟩
  · intro h
    cases h
  · intro h
    cases h

/-! ## Assignment and copy -/

/-- C13: after `a = b` the object `a` holds the stored value of `b`, the object `b` is
unchanged (also when `a` and `b` are the same object), no other object is written, and the
reference returned designates `a`, whose state after the call is what the call returns;
assigning an instance built from a declared constant stores the converted literal; a
copy-constructed instance holds the stored value of its source. -/
theorem C13_assignment_and_copy (V : ScalarType) (s : Store V) (a b : Nat)
    (src : TypeName V) (c : Int) :
    ((s.assign a b).1 a).value = (s b).value
    ∧ (s.assign a b).1 b = s b
    ∧ (∀ k, k ≠ a → (s.assign a b).1 k = s k)
    ∧ (s.assign a b).2 = a
    ∧ ((s a).operator_assign (s b)).Leaves (s b).value
    ∧ ((s a).operator_assign (s b)).ret = (s.assign a b).1 a
    ∧ ((s a).operator_assign (TypeName.of_enum V c)).Leaves (wrap V c)
    ∧ src.copy = src
    ∧ src.copy.value = src.value := by
  have ha : (s.assign a b).1 a = s b := by
    simp [Store.assign, TypeName.operator_assign]
  refine ⟨by rw [ha], ?_, ?_, rfl, ⟨rfl, rfl⟩, ?_, ⟨rfl, rfl⟩, rfl, rfl⟩
  · by_cases hab : b = a
    · rw [hab] at ha ⊢
      exact ha
    · simp [Store.assign, Function.update_noteq hab]
  · intro k hk
    simp [Store.assign, Function.update_noteq hk]
  · rw [ha]
    rfl

/-- C13 on three objects holding `10`, `11` and `12`: after `a = b` with `a` the first and
`b` the second, the first holds `11`, the second still holds `11`, and the third, which is
not the receiver, still holds `12`. -/
theorem C13_assignment_and_copy_witness :
    (2 : Nat) ≠ 0
    ∧ ((Store.assign (fun n => (⟨10 + n⟩ : TypeName ScalarType.int)) 0 1).1 0).value = 11
    ∧ (Store.assign (fun n => (⟨10 + n⟩ : TypeName ScalarType.int)) 0 1).1 1 = ⟨11⟩
    ∧ (Store.assign (fun n => (⟨10 + n⟩ : TypeName ScalarType.int)) 0 1).1 2 = ⟨12⟩ :=
  have h := C13_assignment_and_copy ScalarType.int (fun n => ⟨10 + n⟩) 0 1 ⟨0⟩ 0
  ⟨by decide, h.1, h.2.1, h.2.2.1 2 (by decide)⟩

/-! ## Explicit conversions -/

/-- C14: a plain `value_type` value does not initialise an instance implicitly, so
`direction = value` is not admitted, while an enumerator or another instance does;
conversely no instance converts implicitly to `value_type`; the constructor taking
`value_type` and the conversion function are the two members declared `explicit`, and they
are the conversions between `value_type` and the declared type. -/
theorem C14_conversions_are_explicit :
    converts_to_instance .value_type = false
    ∧ converts_to_instance .enum_type = true
    ∧ converts_to_instance .same_type = true
    ∧ (∀ src : Source, converts_to_instance src = true ↔ (src = .enum_type ∨ src = .same_type))
    ∧ implicit_to_value_type = false
    ∧ conversions = [("TypeName", .const_ref, false), ("TypeName", .enum_type, false),
        ("TypeName", .value_type, true), ("operator value_type", .void, true)]
    ∧ members.filter (fun m => m.is_explicit)
        = [⟨102, "TypeName", .value_type, true⟩, ⟨103, "operator value_type", .void, true⟩]
    ∧ (∀ (V : ScalarType) (value : Int), admits_assignment (Operand.raw value : Operand V) = false)
    ∧ (∀ (V : ScalarType) (other : TypeName V), admits_assignment (Operand.inst other) = true) := by
  refine ⟨by decide, by decide, by decide, ?_, by decide, by decide, by decide, ?_, ?_⟩
  · intro src
    cases src <;> decide
  · intro V value
    rfl
  · intro V other
    rfl

/-! ## The extent of `END_USER_TYPE` -/

/-- C15, evaluated on the text of lines 79-130: the directive that defines
`END_USER_TYPE` consists of lines 94-96 only, because line 96 is empty and ends the
logical line; lines 97-108 and lines 109-130 are two further logical lines that belong to
no directive, line 108 ending without a backslash.  So no member function of lines 98-127,
nor the `typedef` of line 97, the data member of line 129 or the closing of line 130 is
part of any defined text; `END_USER_TYPE` has no parameters, unlike `DECLARE_USER_TYPE`;
and a declaration with any number of constants leaves one brace open. -/
theorem C15_end_user_type_ends_on_line_96 :
    directive_lines "END_USER_TYPE" = [94, 95, 96]
    ∧ directive_lines "DECLARE_USER_TYPE" = [79, 80, 81, 82, 83, 84]
    ∧ directive_lines "USER_TYPE" = [88, 89]
    ∧ logical_line_of 98 = [97, 98, 99, 100, 101, 102, 103, 104, 105, 106, 107, 108]
    ∧ logical_line_of 109 = [109, 110, 111, 112, 113, 114, 115, 116, 117, 118, 119, 120,
        121, 122, 123, 124, 125, 126, 127, 128, 129, 130]
    ∧ members.all (fun m => enclosing_directive m.line == none) = true
    ∧ enclosing_directive value_type_typedef_line = none
    ∧ enclosing_directive value_member_line = none
    ∧ enclosing_directive struct_close_line = none
    ∧ directive_params "END_USER_TYPE" = some []
    ∧ directive_params "DECLARE_USER_TYPE" = some ["TypeName", "ValueType"]
    ∧ directive_braces "END_USER_TYPE" = -1
    ∧ (∀ n : Nat, declaration_braces n = 1) := by
  refine ⟨by decide, by decide, by decide, by decide, by decide, by decide, by decide,
    by decide, by decide, by decide, by decide, by decide, ?_⟩
  intro n
  have e1 : directive_braces "DECLARE_USER_TYPE" = 2 := by decide
  have e2 : directive_braces "USER_TYPE" = 0 := by decide
  have e3 : directive_braces "END_USER_TYPE" = -1 := by decide
  unfold declaration_braces
  rw [e1, e2, e3]
  omega

/-! ## Algebraic laws of the mutating members -/

/-- C16: chaining composes.  The second `+=` of `(x += a) += b` runs on the instance the
first one returns, which is the mutated `x`; the chain leaves `x` holding the fixed-width
image of `(v + a) + b`, the state that the single `x += (a + b)` leaves (with `a + b`
formed in the value type or exactly), and the chain returns that final state.  The same
holds for the overloads taking instances. -/
theorem C16_chained_addition (V : ScalarType) (x : TypeName V) (a b : Int) :
    ((x.operator_add_assign a).ret.operator_add_assign b).Leaves (wrap V (x.value + a + b))
    ∧ IsFixedWidth V ((x.value + a) + b)
        ((x.operator_add_assign a).ret.operator_add_assign b).self.value
    ∧ (x.operator_add_assign a).ret = (x.operator_add_assign a).self
    ∧ ((x.operator_add_assign a).ret.operator_add_assign b).self
        = (x.operator_add_assign (Scalar.add V a b)).self
    ∧ ((x.operator_add_assign a).ret.operator_add_assign b).self
        = (x.operator_add_assign (a + b)).self
    ∧ ((x.operator_add_assign a).ret.operator_add_assign b).ret
        = ((x.operator_add_assign a).ret.operator_add_assign b).self
    ∧ (x.operator_add_assign_ref ⟨a⟩).ret.operator_add_assign_ref ⟨b⟩
        = (x.operator_add_assign a).ret.operator_add_assign b := by
  have h1 : wrap V (wrap V (x.value + a) + b) = wrap V (x.value + a + b) :=
    wrap_add_left V (x.value + a) b
  have h2 : wrap V (x.value + wrap V (a + b)) = wrap V (x.value + a + b) := by
    rw [wrap_add_right, add_assoc]
  have hv : ((x.operator_add_assign a).ret.operator_add_assign b).self.value
      = wrap V (x.value + a + b) := h1
  refine ⟨⟨hv, rfl⟩, ?_, rfl, ?_, ?_, rfl, rfl⟩
  · rw [hv]
    exact wrap_isFixedWidth V _
  · apply TypeName.eq_of_value
    rw [hv]
    exact h2.symm
  · apply TypeName.eq_of_value
    rw [hv]
    show wrap V (x.value + a + b) = wrap V (x.value + (a + b))
    rw [add_assoc]

/-- C17: increment and decrement are inverse to each other on every instance holding a
value of the value type, the extreme values included: `++x` then `--x`, `--x` then `++x`,
and the same sequences in the post forms, leave `x` holding the value it held.  At the
largest value the increment wraps to the smallest, and at the smallest the decrement
wraps to the largest. -/
theorem C17_increment_decrement_inverse (V : ScalarType) (x : TypeName V)
    (h : InRange V x.value) :
    x.operator_pre_inc.self.operator_pre_dec.self = x
    ∧ x.operator_pre_dec.self.operator_pre_inc.self = x
    ∧ x.operator_post_inc.self.operator_post_dec.self = x
    ∧ x.operator_post_dec.self.operator_post_inc.self = x
    ∧ (⟨V.min + V.modulus - 1⟩ : TypeName V).operator_pre_inc.self.value = V.min
    ∧ (⟨V.min⟩ : TypeName V).operator_pre_dec.self.value = V.min + V.modulus - 1 := by
  have hpos := modulus_pos V
  refine ⟨?_, ?_, ?_, ?_, ?_, ?_⟩
  · exact TypeName.eq_of_value (inc_dec_cancel V x.value h)
  · exact TypeName.eq_of_value (dec_inc_cancel V x.value h)
  · exact TypeName.eq_of_value (inc_dec_cancel V x.value h)
  · exact TypeName.eq_of_value (dec_inc_cancel V x.value h)
  · show wrap V (V.min + V.modulus - 1 + 1) = V.min
    have e : wrap V (V.min + V.modulus - 1 + 1) = wrap V V.min := by
      apply wrap_congr
      have e' : V.min + V.modulus - 1 + 1 - V.min = V.modulus := by ring
      rw [e']
      exact Int.emod_self
    rw [e]
    exact wrap_of_inRange V _ ⟨le_refl _, by omega⟩
  · show wrap V (V.min - 1) = V.min + V.modulus - 1
    have e : wrap V (V.min - 1) = wrap V (V.min + V.modulus - 1) := by
      apply wrap_congr
      have e' : V.min - 1 - (V.min + V.modulus - 1) = V.modulus * (-1) := by ring
      rw [e']
      exact Int.mul_emod_right _ _
    rw [e]
    exact wrap_of_inRange V _ ⟨by omega, by omega⟩

/-- C17 at the extreme values of `int`: from `2147483647`, `++x` wraps to `-2147483648`
and `--x` brings it back; from `-2147483648`, `--x` then `++x` brings it back. -/
theorem C17_increment_decrement_inverse_witness :
    InRange ScalarType.int 2147483647
    ∧ InRange ScalarType.int (-2147483648)
    ∧ (⟨2147483647⟩ : TypeName ScalarType.int).operator_pre_inc.self = ⟨-2147483648⟩
    ∧ (⟨2147483647⟩ : TypeName ScalarType.int).operator_pre_inc.self.operator_pre_dec.self
        = ⟨2147483647⟩
    ∧ (⟨-2147483648⟩ : TypeName ScalarType.int).operator_post_dec.self.operator_post_inc.self
        = ⟨-2147483648⟩ :=
  ⟨by decide, by decide, by decide,
   (C17_increment_decrement_inverse ScalarType.int ⟨2147483647⟩ (by decide)).1,
   (C17_increment_decrement_inverse ScalarType.int ⟨-2147483648⟩ (by decide)).2.2.2.1⟩

/-- C18: add and subtract cancel, and exclusive-or is its own inverse.  For every instance
holding a value `v` of the value type and every `k`, `x += k` followed by `x -= k` leaves
`x` holding `v`, through the overloads taking a raw value and through those taking
an instance holding `k`, and `x ^= k` applied twice leaves `x` holding `v`. -/
theorem C18_add_sub_and_xor_cancel (V : ScalarType) (x : TypeName V) (k : Int)
    (h : InRange V x.value) :
    ((x.operator_add_assign k).self.operator_sub_assign k).self = x
    ∧ ((x.operator_add_assign_ref ⟨k⟩).self.operator_sub_assign_ref ⟨k⟩).self = x
    ∧ ((x.operator_xor_assign k).self.operator_xor_assign k).self = x
    ∧ ((x.operator_xor_assign_ref ⟨k⟩).self.operator_xor_assign_ref ⟨k⟩).self = x := by
  refine ⟨?_, ?_, ?_, ?_⟩
  · exact TypeName.eq_of_value (add_sub_cancel_wrap V x.value k h)
  · exact TypeName.eq_of_value (add_sub_cancel_wrap V x.value k h)
  · exact TypeName.eq_of_value (xor_xor_cancel V x.value k h)
  · exact TypeName.eq_of_value (xor_xor_cancel V x.value k h)

/-- C18 over `int`: from `2147483647`, `x += 1` wraps to `-2147483648` and `x -= 1` brings
it back; from `5`, `x ^= 3` gives `6` and `x ^= 3` again gives `5`. -/
theorem C18_add_sub_and_xor_cancel_witness :
    InRange ScalarType.int 2147483647
    ∧ ((⟨2147483647⟩ : TypeName ScalarType.int).operator_add_assign 1).self = ⟨-2147483648⟩
    ∧ (((⟨2147483647⟩ : TypeName ScalarType.int).operator_add_assign 1).self.operator_sub_assign
        1).self = ⟨2147483647⟩
    ∧ ((⟨5⟩ : TypeName ScalarType.int).operator_xor_assign 3).self = ⟨6⟩
    ∧ (((⟨5⟩ : TypeName ScalarType.int).operator_xor_assign 3).self.operator_xor_assign 3).self
        = ⟨5⟩ :=
  ⟨by decide, by decide,
   (C18_add_sub_and_xor_cancel ScalarType.int ⟨2147483647⟩ 1 (by decide)).1,
   by decide,
   (C18_add_sub_and_xor_cancel ScalarType.int ⟨5⟩ 3 (by decide)).2.2.1⟩

end etl
